import Mathlib

/-!
Verification of the Graph query-translation and response-normalization layer of
the mcp-ms-chat repository.  The TypeScript services are shallowly embedded:
JavaScript strings become `String`, numbers used as counts become `Nat`,
optional/undefined-able fields become `Option`, fallible calls become `Except`,
and every outbound HTTP call is an oracle function passed in as a parameter.
JavaScript truthiness (`if (x)`) is modelled explicitly for strings
(`undefined`/empty ↦ false) and numbers (`undefined`/`0` ↦ false).
-/

set_option autoImplicit false

namespace McpMsChat

/-! ### JavaScript string primitives -/

/-- The single-quote character, written by code point to keep source plain. -/
def qc : Char := Char.ofNat 39

/-- The single-quote character as a string. -/
def sq : String := String.mk [qc]

/-- Truthiness of an optional JS string: `undefined` and `""` are falsy. -/
def strTruthy : Option String → Bool
  | none => false
  | some s => !s.isEmpty

/-- Truthiness of an optional JS number used as a count: `undefined` and `0` are falsy. -/
def natTruthy : Option Nat → Bool
  | none => false
  | some n => n != 0

/-- Model of `a || d` for an optional string `a`: the string when truthy, else the default. -/
def jsOrStr (o : Option String) (d : String) : String :=
  if strTruthy o then o.getD d else d

/-- JavaScript `s.substring(0, n)` (inputs here are within range). -/
def jsSubstring0 (s : String) (n : Nat) : String :=
  String.mk (s.toList.take n)

/-- JavaScript `s.padEnd(w)`: right-pad with spaces to width `w` (no-op when longer). -/
def jsPadEnd (s : String) (w : Nat) : String :=
  s ++ String.mk (List.replicate (w - s.length) ' ')

/-- JavaScript `s.padStart(w)`: left-pad with spaces to width `w`. -/
def jsPadStart (s : String) (w : Nat) : String :=
  String.mk (List.replicate (w - s.length) ' ') ++ s

/-- Boolean infix test on character lists, used to model `String.prototype.includes`. -/
def infixOfList (needle : List Char) : List Char → Bool
  | [] => needle.isEmpty
  | c :: cs => needle.isPrefixOf (c :: cs) || infixOfList needle cs

/-- JavaScript `hay.includes(needle)`. -/
def jsIncludes (hay needle : String) : Bool :=
  infixOfList needle.toList hay.toList

/-- Uppercase hexadecimal digit for `n < 16`. -/
def hexDigit (n : Nat) : Char :=
  if n < 10 then Char.ofNat (48 + n) else Char.ofNat (55 + n)

/-- Percent-encoding of one byte: `%XX` with uppercase hex, as used by
`encodeURIComponent`. -/
def percentByte (b : Nat) : List Char :=
  [Char.ofNat 37, hexDigit (b / 16 % 16), hexDigit (b % 16)]

/-- UTF-8 byte sequence of a code point. -/
def utf8Bytes (n : Nat) : List Nat :=
  if n < 128 then [n]
  else if n < 2048 then [192 + n / 64, 128 + n % 64]
  else if n < 65536 then [224 + n / 4096, 128 + n / 64 % 64, 128 + n % 64]
  else [240 + n / 262144, 128 + n / 4096 % 64, 128 + n / 64 % 64, 128 + n % 64]

/-- The characters `encodeURIComponent` leaves unescaped:
`A-Z a-z 0-9 - _ . ! ~ *` the single quote and `( )`. -/
def uriUnreserved (c : Char) : Bool :=
  (65 ≤ c.toNat && c.toNat ≤ 90) ||
  (97 ≤ c.toNat && c.toNat ≤ 122) ||
  (48 ≤ c.toNat && c.toNat ≤ 57) ||
  [Char.ofNat 45, Char.ofNat 95, Char.ofNat 46, Char.ofNat 33, Char.ofNat 126,
   Char.ofNat 42, qc, Char.ofNat 40, Char.ofNat 41].contains c

/-- JavaScript `encodeURIComponent`. -/
def encodeURIComponent (s : String) : String :=
  String.mk (s.toList.flatMap fun c =>
    if uriUnreserved c then [c] else (utf8Bytes c.toNat).flatMap percentByte)

/-- Model of the quote-doubling replace of the source (a global regex replace of each single quote by two): every single quote is doubled. -/
def escQuotes (s : String) : String :=
  String.mk (s.toList.flatMap fun c => if c = qc then [qc, qc] else [c])

example : encodeURIComponent "u1@example.com" = "u1%40example.com" := by decide
example : escQuotes (sq ++ "a" ++ sq) = sq ++ sq ++ "a" ++ sq ++ sq := by decide

/-! ### Data model (src/interfaces/chat.ts) -/

/-- A chat member as supplied by callers (`ChatMember` in interfaces/chat.ts). -/
structure ChatMember where
  id : String
  displayName : Option String := none
  roles : Option (List String) := none
  userPrincipalName : Option String := none
  deriving Repr, DecidableEq

/-- A chat message, restricted to the fields the embedded operations touch.
`createdDateTime` is an abstract timestamp (milliseconds since epoch, the value
`new Date(x).getTime()` yields); `isRead` may be absent in remote JSON. -/
structure ChatMessage where
  id : String := ""
  createdDateTime : Nat := 0
  isRead : Option Bool := none
  deriving Repr, DecidableEq

/-- A chat, restricted to the fields the embedded operations touch.
`createdDateTime` is an abstract timestamp as in `ChatMessage`. -/
structure Chat where
  id : String
  topic : String := ""
  chatType : String := ""
  createdDateTime : Nat := 0
  lastUpdatedDateTime : Nat := 0
  deriving Repr, DecidableEq

/-- The `ListMessagesOptions` interface (part_004): all fields optional.
`from` is a Lean keyword, so the field is spelled `fromUser`. -/
structure ListMessagesOptions where
  fromUser : Option String := none
  afterDateTime : Option String := none
  beforeDateTime : Option String := none
  contains : Option String := none
  isRead : Option Bool := none
  importance : Option String := none
  top : Option Nat := none
  skip : Option Nat := none
  orderBy : Option String := none
  select : Option (List String) := none
  expand : Option (List String) := none
  deriving Repr

/-- The `ListChatsOptions` interface of interfaces/chat.ts.  `orderby` is passed to the
service pre-joined into one string; `select`/`expand` are optional arrays
(a present array, even empty, is truthy in JavaScript). -/
structure ListChatsOptions where
  top : Option Nat := none
  skip : Option Nat := none
  filter : Option String := none
  orderby : Option String := none
  select : Option (List String) := none
  expand : Option (List String) := none
  deriving Repr

deriving instance DecidableEq for Except

/-- Truthiness of an optional JS array: present arrays (even empty) are truthy. -/
def arrTruthy {α : Type} : Option (List α) → Bool
  | none => false
  | some _ => true

/-! ### getChatMessages: OData `$filter` synthesis
(src/services/chatService.ts lines 396-425; identical in part_006 lines 281-310). -/

/-- The `from` clause pushed at chatService.ts:399-404.  `upn` is the service
configuration field `userPrincipalName`; `toISO` plays no role here. -/
def fromClause (upn : Option String) (f : String) : String :=
  let fromValue := if f = "me" then jsOrStr upn "me" else f
  "from/emailAddress/address eq " ++ sq ++ encodeURIComponent fromValue ++ sq

/-- The `importance` clause pushed at chatService.ts:406-408. -/
def importanceClause (i : String) : String :=
  "importance eq " ++ sq ++ i ++ sq

/-- The `afterDateTime` clause pushed at chatService.ts:410-412; `toISO`
stands for `x => new Date(x).toISOString()`. -/
def afterClause (toISO : String → String) (d : String) : String :=
  "createdDateTime ge " ++ toISO d

/-- The `beforeDateTime` clause pushed at chatService.ts:414-416. -/
def beforeClause (toISO : String → String) (d : String) : String :=
  "createdDateTime le " ++ toISO d

/-- The `contains` clause pushed at chatService.ts:418-420, with single
quotes in the user text doubled. -/
def containsClause (c : String) : String :=
  "contains(body/content, " ++ sq ++ escQuotes c ++ sq ++ ")"

/-- The `filterParts` array built at chatService.ts:397-420: one push per
truthy structured predicate, in source order. -/
def messagesFilterParts (upn : Option String) (toISO : String → String)
    (o : ListMessagesOptions) : List String :=
  (if strTruthy o.fromUser then [fromClause upn (o.fromUser.getD "")] else []) ++
  (if strTruthy o.importance then [importanceClause (o.importance.getD "")] else []) ++
  (if strTruthy o.afterDateTime then [afterClause toISO (o.afterDateTime.getD "")] else []) ++
  (if strTruthy o.beforeDateTime then [beforeClause toISO (o.beforeDateTime.getD "")] else []) ++
  (if strTruthy o.contains then [containsClause (o.contains.getD "")] else [])

/-- The `$filter` applied at chatService.ts:423-425: the parts joined with
" and " when non-empty, otherwise no filter at all. -/
def messagesFilter (upn : Option String) (toISO : String → String)
    (o : ListMessagesOptions) : Option String :=
  let parts := messagesFilterParts upn toISO o
  if parts.length > 0 then some (String.intercalate " and " parts) else none

/-- Number of supplied (truthy) structured predicates, stated independently of
the filter builder. -/
def suppliedPredCount (o : ListMessagesOptions) : Nat :=
  (if strTruthy o.fromUser then 1 else 0) +
  (if strTruthy o.importance then 1 else 0) +
  (if strTruthy o.afterDateTime then 1 else 0) +
  (if strTruthy o.beforeDateTime then 1 else 0) +
  (if strTruthy o.contains then 1 else 0)

example :
    messagesFilter none id
      { importance := some "high", contains := some "a" } =
    some ("importance eq " ++ sq ++ "high" ++ sq ++
      " and contains(body/content, " ++ sq ++ "a" ++ sq ++ ")") := by decide

/-! ### getChatMessages: request assembly and client-side normalization
(src/services/chatService.ts lines 373-465; part_006 lines 258-350 is the same
code modulo the surrounding class). -/

/-- The query parameters `getChatMessages` has applied to the Graph request by
the time it calls `.get()` (chatService.ts lines 380-443). -/
structure MessagesRequest where
  chatId : String
  top : Nat
  skip : Option Nat
  filter : Option String
  orderby : String
  select : List String
  expand : List String
  deriving Repr, DecidableEq

/-- Request assembly of chatService.ts:380-443: `$top` is `min(top, 1000)` when
`options.top` is truthy and `50` otherwise; `$skip` only when truthy; the
synthesized `$filter`; `$orderby` defaulting to `createdDateTime desc`;
`$select`/`$expand` only when present and non-empty. -/
def buildMessagesRequest (upn : Option String) (toISO : String → String)
    (chatId : String) (o : ListMessagesOptions) : MessagesRequest where
  chatId := chatId
  top := if natTruthy o.top then min (o.top.getD 0) 1000 else 50
  skip := if natTruthy o.skip then o.skip else none
  filter := messagesFilter upn toISO o
  orderby := if strTruthy o.orderBy then o.orderBy.getD "" else "createdDateTime desc"
  select := match o.select with
    | some l => if l.length > 0 then l else []
    | none => []
  expand := match o.expand with
    | some l => if l.length > 0 then l else []
    | none => []

/-- A remote message-collection response: the messages, the optional
`@odata.count` metadata, and the optional `@odata.nextLink`. -/
structure MessagesResponse where
  value : List ChatMessage
  odataCount : Option Nat := none
  nextLink : Option String := none
  deriving Repr, DecidableEq

/-- JS truthiness of `msg.isRead` (absent and `false` are both falsy). -/
def msgReadTruthy (m : ChatMessage) : Bool :=
  m.isRead == some true

/-- The client-side `isRead` pass of chatService.ts:449-458: when the option is
set, keep exactly the matching messages and, when `@odata.count` was present,
overwrite it with the filtered length. -/
def applyIsReadFilter (o : ListMessagesOptions) (r : MessagesResponse) : MessagesResponse :=
  match o.isRead with
  | none => r
  | some b =>
    let value := r.value.filter fun m => if b then msgReadTruthy m else !msgReadTruthy m
    { r with
      value := value
      odataCount := match r.odataCount with
        | none => none
        | some _ => some value.length }

/-- The `getChatMessages` operation: build the request, issue it against the remote oracle
`server`, then post-process; a remote failure is wrapped, not swallowed
(chatService.ts:373-465). -/
def getChatMessages (server : MessagesRequest → Except String MessagesResponse)
    (upn : Option String) (toISO : String → String)
    (chatId : String) (o : ListMessagesOptions) : Except String MessagesResponse :=
  match server (buildMessagesRequest upn toISO chatId o) with
  | .error e => .error ("Failed to get chat messages: " ++ e)
  | .ok resp => .ok (applyIsReadFilter o resp)

/-! ### listChats of src/services/chatService.ts (lines 312-365). -/

/-- The query parameters `listChats` applies before `.get()`. -/
structure ChatsRequest where
  top : Nat
  filter : Option String
  orderby : Option String
  select : Option (List String)
  expand : Option (List String)
  deriving Repr, DecidableEq

/-- Request assembly of chatService.ts:318-350:
`const top = options.top ? Math.min(options.top, 50) : 50`, and each further
option applied only when truthy. -/
def buildChatsRequest (o : ListChatsOptions) : ChatsRequest where
  top := if natTruthy o.top then min (o.top.getD 0) 50 else 50
  filter := if strTruthy o.filter then o.filter else none
  orderby := if strTruthy o.orderby then o.orderby else none
  select := if arrTruthy o.select then o.select else none
  expand := if arrTruthy o.expand then o.expand else none

/-- A remote chat-collection response; `value` may be absent in the JSON
(the code reads `response.value || []`). -/
structure ChatsResponse where
  value : Option (List Chat) := none
  nextLink : Option String := none
  deriving Repr, DecidableEq

/-- The normalized result of `listChats` (`ChatCollectionResponse`). -/
structure ChatCollectionResponse where
  value : List Chat
  nextLink : Option String := none
  deriving Repr, DecidableEq

/-- The `listChats` operation of chatService.ts:312-365: issue the request and reshape the
response into `value: response.value || []` plus the `@odata.nextLink` copied
over unchanged. -/
def listChats (server : ChatsRequest → Except String ChatsResponse)
    (o : ListChatsOptions) : Except String ChatCollectionResponse :=
  match server (buildChatsRequest o) with
  | .error e => .error ("Failed to list chats: " ++ e)
  | .ok resp => .ok { value := resp.value.getD [], nextLink := resp.nextLink }

/-! ### listChats of the variant service (part_006 lines 206-250). -/

/-- The mutable request object of the variant `listChats`: each applied query
parameter overwrites a field. -/
structure GraphListRequest where
  top : Option Nat := none
  filter : Option String := none
  orderby : Option String := none
  select : Option (List String) := none
  expand : Option (List String) := none
  deriving Repr, DecidableEq

/-- Request assembly of part_006:212-241.  `options.top` is passed through raw
with no clamp and no default; part_006:219-221 then calls
`request.top(options.skip)` for the skip option, overwriting `$top` with the
skip value. -/
def listChatsV2Request (o : ListChatsOptions) : GraphListRequest :=
  let r0 : GraphListRequest := {}
  let r1 := if natTruthy o.top then { r0 with top := o.top } else r0
  let r2 := if natTruthy o.skip then { r1 with top := o.skip } else r1
  let r3 := if strTruthy o.filter then { r2 with filter := o.filter } else r2
  let r4 := if strTruthy o.orderby then { r3 with orderby := o.orderby } else r3
  let r5 := if arrTruthy o.select then { r4 with select := o.select } else r4
  if arrTruthy o.expand then { r5 with expand := o.expand } else r5

/-- The variant `listChats` returns the remote response as-is (part_006:244-245). -/
def listChatsV2 (server : GraphListRequest → Except String ChatsResponse)
    (o : ListChatsOptions) : Except String ChatsResponse :=
  match server (listChatsV2Request o) with
  | .error e => .error ("Failed to list chats: " ++ e)
  | .ok resp => .ok resp

/-! ### createChat of the variant service (part_006 lines 98-144). -/

/-- Model of `a || d` on a plain (non-optional) JS string. -/
def jsOrS (s d : String) : String :=
  if s.isEmpty then d else s

/-- Caller input to chat creation. -/
structure CreateChatData where
  topic : String
  chatType : String
  members : List ChatMember
  deriving Repr

/-- A member formatted for the Graph API (`@odata.type`, `user@odata.bind`, roles). -/
structure FormattedMember where
  odataType : String
  bind : String
  roles : List String
  deriving Repr, DecidableEq

/-- Member formatting of part_006:107-111: raw id in the bind URL and
`member.roles || [owner]` (a present array, even empty, wins). -/
def formatMemberV2 (m : ChatMember) : FormattedMember where
  odataType := "#microsoft.graph.aadUserConversationMember"
  bind := "https://graph.microsoft.com/v1.0/users/" ++ m.id
  roles := match m.roles with
    | some rs => rs
    | none => ["owner"]

/-- The body POSTed to `/chats`. -/
structure CreateChatBody where
  chatType : String
  topic : String
  members : List FormattedMember
  deriving Repr, DecidableEq

/-- The remote create response, restricted to the fields the code reads. -/
structure CreateChatResponse where
  id : String
  topic : Option String := none
  chatType : Option String := none
  createdDateTime : Option Nat := none
  lastUpdatedDateTime : Option Nat := none
  deriving Repr, DecidableEq

/-- The creation body assembled by the variant createChat (part_006:113-120). -/
def createChatV2Body (chatData : CreateChatData) : CreateChatBody where
  chatType := chatData.chatType
  topic := chatData.topic
  members := chatData.members.map formatMemberV2

/-- The `createChat` operation of part_006:98-144: POST the body, then try the follow-up
`getChat(chatResponse.id)`; when that follow-up fails the inner catch returns a
minimal Chat built from the create response id, the caller inputs and a fresh
timestamp (`now` stands for the `new Date().toISOString()` taken there).  Only
a failure of the POST itself reaches the outer catch. -/
def createChatV2
    (postChats : CreateChatBody → Except String CreateChatResponse)
    (getChatById : String → Except String Chat)
    (now : Nat) (chatData : CreateChatData) : Except String Chat :=
  match postChats (createChatV2Body chatData) with
  | .error e => .error ("Failed to create chat: " ++ e)
  | .ok chatResponse =>
    match getChatById chatResponse.id with
    | .ok chat => .ok chat
    | .error _ =>
      .ok { id := chatResponse.id
            topic := chatData.topic
            chatType := chatData.chatType
            createdDateTime := now
            lastUpdatedDateTime := now }

/-! ### getRecentMessages of the variant service (part_006 lines 359-426). -/

/-- Options of `getRecentMessages`: `ListMessagesOptions` minus the date bounds,
plus `days`. -/
structure RecentMessagesOptions where
  fromUser : Option String := none
  contains : Option String := none
  isRead : Option Bool := none
  importance : Option String := none
  top : Option Nat := none
  skip : Option Nat := none
  orderBy : Option String := none
  select : Option (List String) := none
  expand : Option (List String) := none
  days : Option Nat := none
  deriving Repr

/-- The `ExtendedChatMessage` shape of part_006:371-375: a message plus its chat info. -/
structure ExtendedChatMessage where
  msg : ChatMessage
  chatId : String
  chatTopic : String
  chatType : String
  deriving Repr, DecidableEq

/-- The per-chat listing options spread at part_006:385-389:
the caller options with `afterDateTime` set to the cutoff and
`top: options.top || 20`. -/
def recentPerChatOptions (cutoffISO : String) (o : RecentMessagesOptions) :
    ListMessagesOptions where
  fromUser := o.fromUser
  afterDateTime := some cutoffISO
  beforeDateTime := none
  contains := o.contains
  isRead := o.isRead
  importance := o.importance
  top := some (if natTruthy o.top then o.top.getD 0 else 20)
  skip := o.skip
  orderBy := o.orderBy
  select := o.select
  expand := o.expand

/-- The sequential per-chat loop of part_006:383-404: one listing call per
chat; a successful call contributes its messages tagged with the chat info,
a failing call is skipped (`catch` + `continue with next chat`). -/
def collectRecent (getMsgs : String → ListMessagesOptions → Except String MessagesResponse)
    (perChatOpts : ListMessagesOptions) : List Chat → List ExtendedChatMessage
  | [] => []
  | chat :: rest =>
    (match getMsgs chat.id perChatOpts with
     | .ok messages => messages.value.map fun msg =>
        { msg := msg
          chatId := chat.id
          chatTopic := jsOrS chat.topic "No Topic"
          chatType := jsOrS chat.chatType "unknown" }
     | .error _ => []) ++ collectRecent getMsgs perChatOpts rest

/-- The comparator of part_006:407-409 as a Boolean order: `a` may precede `b`
iff the creation time of `b` does not exceed that of `a` (newest first). -/
def msgGE (a b : ExtendedChatMessage) : Bool :=
  b.msg.createdDateTime ≤ a.msg.createdDateTime

/-- The aggregated result of `getRecentMessages`. -/
structure RecentMessagesResult where
  value : List ExtendedChatMessage
  nextLink : Option String := none
  deriving Repr, DecidableEq

/-- Default for the day window: `options.days || 7` (part_006:366). -/
def recentDaysOf (o : RecentMessagesOptions) : Nat :=
  if natTruthy o.days then o.days.getD 0 else 7

/-- Default for the slice offset: `options.skip || 0` (part_006:412). -/
def recentSkipOf (o : RecentMessagesOptions) : Nat :=
  if natTruthy o.skip then o.skip.getD 0 else 0

/-- Default for the slice size: `options.top || 50` (part_006:413). -/
def recentTopOf (o : RecentMessagesOptions) : Nat :=
  if natTruthy o.top then o.top.getD 0 else 50

/-- The synthesized continuation token of part_006:418-419. -/
def synthNextLink (skip top : Nat) : String :=
  "skip=" ++ toString (skip + top) ++ "&top=" ++ toString top

/-- The `getRecentMessages` operation of part_006:359-426: list chats (top 100), collect
messages per chat sequentially skipping failures, sort newest-first, slice
`[skip, skip+top)`, and synthesize a local `skip=...&top=...` continuation
token when more aggregated messages remain.  `nowMinusDays d` stands for the
ISO string of the current time minus `d` days computed at part_006:366-368. -/
def getRecentMessages
    (listChatsFn : ListChatsOptions → Except String ChatCollectionResponse)
    (getMsgs : String → ListMessagesOptions → Except String MessagesResponse)
    (nowMinusDays : Nat → String)
    (o : RecentMessagesOptions) : Except String RecentMessagesResult :=
  let cutoffISO := nowMinusDays (recentDaysOf o)
  match listChatsFn { top := some 100 } with
  | .error e => .error ("Failed to get recent messages: " ++ e)
  | .ok chats =>
    let allMessages := collectRecent getMsgs (recentPerChatOptions cutoffISO o) chats.value
    let sorted := allMessages.mergeSort msgGE
    let skip := recentSkipOf o
    let top := recentTopOf o
    .ok { value := (sorted.drop skip).take top
          nextLink := if allMessages.length > skip + top then
              some (synthNextLink skip top)
            else none }

/-! ### createChat of src/services/chatService.ts (lines 136-250),
with an explicit trace of the outbound network calls. -/

/-- One outbound Graph call made by the primary `createChat`. -/
inductive NetCall where
  | getMe
  | getUser (id : String)
  | postChats (body : CreateChatBody)
  deriving Repr, DecidableEq

/-- User-id resolution of chatService.ts:168-178: ids containing `@` are kept;
otherwise `/users/{id}` is fetched (`resolve`, yielding the optional
`userPrincipalName`), falling back to the raw id on lookup failure or a falsy
upn.  Returns the resolved id and the network calls made. -/
def resolveUserId (resolve : String → Except String (Option String))
    (id : String) : String × List NetCall :=
  if jsIncludes id (String.mk [Char.ofNat 64]) then (id, [])
  else match resolve id with
    | .ok upn => (jsOrStr upn id, [NetCall.getUser id])
    | .error _ => (id, [NetCall.getUser id])

/-- Member formatting of chatService.ts:163-185: missing id throws; roles
default to a singleton guest role unless a non-empty array was supplied; the bind URL
percent-encodes the resolved id. -/
def formatMember (resolve : String → Except String (Option String))
    (m : ChatMember) : Except String FormattedMember × List NetCall :=
  if m.id.isEmpty then (.error "Member ID is required", [])
  else
    let r := resolveUserId resolve m.id
    (.ok { odataType := "#microsoft.graph.aadUserConversationMember"
           bind := "https://graph.microsoft.com/v1.0/users/" ++ encodeURIComponent r.1
           roles := match m.roles with
             | some rs => if rs.length > 0 then rs else ["guest"]
             | none => ["guest"] },
     r.2)

/-- Formatting of the whole member list (the `Promise.all` at
chatService.ts:163): first failure aborts the operation. -/
def formatMembers (resolve : String → Except String (Option String)) :
    List ChatMember → Except String (List FormattedMember) × List NetCall
  | [] => (.ok [], [])
  | m :: rest =>
    match formatMember resolve m with
    | (.error e, calls) => (.error e, calls)
    | (.ok fm, calls) =>
      match formatMembers resolve rest with
      | (.error e, calls2) => (.error e, calls ++ calls2)
      | (.ok fms, calls2) => (.ok (fm :: fms), calls ++ calls2)

/-- The `currentUserExists` check of chatService.ts:188-190: some formatted
bind URL contains the percent-encoded current-user UPN. -/
def currentUserExists (ms : List FormattedMember) (upn : String) : Bool :=
  ms.any fun m => jsIncludes m.bind (encodeURIComponent upn)

/-- The entry unshifted for the current user at chatService.ts:192-198. -/
def ownerEntry (upn : String) : FormattedMember where
  odataType := "#microsoft.graph.aadUserConversationMember"
  bind := "https://graph.microsoft.com/v1.0/users/" ++ encodeURIComponent upn
  roles := ["owner"]

/-- The member list of the creation payload: the formatted members, with the
current user prepended as owner when not already present. -/
def createChatMembersPayload (upn : String) (ms : List FormattedMember) :
    List FormattedMember :=
  if currentUserExists ms upn then ms else ownerEntry upn :: ms

/-- The Chat returned on success (chatService.ts:212-223), restricted to the
fields of the embedded `Chat`; absent response fields fall back to the inputs
and to fresh timestamps (`now`). -/
def createChatResult (chatData : CreateChatData) (resp : CreateChatResponse)
    (now : Nat) : Chat where
  id := resp.id
  topic := jsOrStr resp.topic chatData.topic
  chatType := jsOrStr resp.chatType chatData.chatType
  createdDateTime := if natTruthy resp.createdDateTime then resp.createdDateTime.getD 0 else now
  lastUpdatedDateTime := if natTruthy resp.lastUpdatedDateTime then resp.lastUpdatedDateTime.getD 0 else now

/-- The `createChat` operation of chatService.ts:136-250 with its network calls traced, in
source order: the empty-member validation throws before any network call; then
GET `/me`; then member formatting (with possible `/users/{id}` lookups); then
POST `/chats` with the payload.  Remote failures are wrapped by the catch at
lines 225-249 (its status-code-specific message selection is collapsed into
one wrapped message, which no claim inspects). -/
def createChatTraced
    (me : Except String (Option String))
    (resolve : String → Except String (Option String))
    (post : CreateChatBody → Except String CreateChatResponse)
    (now : Nat)
    (chatData : CreateChatData) : Except String Chat × List NetCall :=
  if chatData.members.length = 0 then
    (.error "Failed to create chat: At least one member is required to create a chat", [])
  else
    match me with
    | .error e => (.error ("Failed to create chat: " ++ e), [NetCall.getMe])
    | .ok upnOpt =>
      if !strTruthy upnOpt then
        (.error "Failed to create chat: Could not determine current user information",
         [NetCall.getMe])
      else
        let currentUserUpn := upnOpt.getD ""
        match formatMembers resolve chatData.members with
        | (.error e, calls) =>
          (.error ("Failed to create chat: " ++ e), NetCall.getMe :: calls)
        | (.ok fms, calls) =>
          let members := createChatMembersPayload currentUserUpn fms
          let body : CreateChatBody :=
            { chatType := chatData.chatType, topic := chatData.topic, members := members }
          match post body with
          | .error e =>
            (.error ("Failed to create chat: " ++ e),
             NetCall.getMe :: calls ++ [NetCall.postChats body])
          | .ok resp =>
            if resp.id.isEmpty then
              (.error "Failed to create chat: Invalid response from Microsoft Graph API",
               NetCall.getMe :: calls ++ [NetCall.postChats body])
            else
              (.ok (createChatResult chatData resp now),
               NetCall.getMe :: calls ++ [NetCall.postChats body])

/-- The `ChatService` configuration (chatService.ts:17-22). -/
structure ChatServiceConfig where
  accessToken : Option String := none
  userPrincipalName : Option String := none
  deriving Repr

/-- The `ChatService` constructor (chatService.ts:30-36): a falsy
`accessToken` throws immediately; the constructor performs no network call,
so its trace is always empty. -/
def mkChatService (cfg : ChatServiceConfig) :
    Except String ChatServiceConfig × List NetCall :=
  if !strTruthy cfg.accessToken then
    (.error "accessToken is required in ChatService configuration", [])
  else (.ok cfg, [])

/-! ### Fixed-width table cells of the formatter (part_000). -/

/-- The `topic` column width of `formatChatTable` (part_000:179). -/
def topicColumnWidth : Nat := 30

/-- The topic cell of a chat-table row (part_000:208):
`(chat.topic || "No topic").substring(0, w - 3).padEnd(w)` with an ellipsis
appended when the topic is truthy and longer than `w - 3`.  The same
substring/padEnd/append pattern renders the sender and content cells of
`formatMessageTable` (part_000:389-390). -/
def renderTopicCell (topic : Option String) (w : Nat) : String :=
  jsPadEnd (jsSubstring0 (jsOrStr topic "No topic") (w - 3)) w ++
  (if strTruthy topic && (topic.getD "").length > w - 3 then "..." else "")

/-! ### Concrete fixtures used by witnesses and counterexamples. -/

/-- Message-listing options whose `from` value carries a single quote. -/
def cexFromOptions : ListMessagesOptions :=
  { fromUser := some ("o" ++ sq ++ "brien@x.com") }

/-- Message-listing options supplying `from` and a quoted `contains` text. -/
def cexWitnessOptions : ListMessagesOptions :=
  { fromUser := some "alice@x.com", contains := some ("a" ++ sq ++ "b") }

/-- A read message. -/
def msgRead1 : ChatMessage := { id := "m1", isRead := some true }

/-- An unread message. -/
def msgUnread2 : ChatMessage := { id := "m2", isRead := some false }

/-- Another unread message. -/
def msgUnread3 : ChatMessage := { id := "m3", isRead := some false }

/-- Options selecting unread messages. -/
def isReadOptions : ListMessagesOptions := { isRead := some false }

/-- A remote page `[read, unread, unread]` reporting a count of 3. -/
def isReadResponse : MessagesResponse :=
  { value := [msgRead1, msgUnread2, msgUnread3], odataCount := some 3 }

/-- A remote oracle always answering with `isReadResponse`. -/
def isReadServer : MessagesRequest → Except String MessagesResponse :=
  fun _ => .ok isReadResponse

/-- A remote oracle answering with a two-message page without count metadata. -/
def c10Server : MessagesRequest → Except String MessagesResponse :=
  fun _ => .ok { value := [msgRead1, msgUnread2] }

/-- A create oracle that succeeds with a fixed chat id. -/
def c3Post : CreateChatBody → Except String CreateChatResponse :=
  fun _ => .ok { id := "19:abc" }

/-- A follow-up fetch oracle that always fails. -/
def c3Get : String → Except String Chat :=
  fun _ => .error "Insufficient permissions"

/-- Caller input for the chat-creation fixtures. -/
def c3Data : CreateChatData :=
  { topic := "Sync", chatType := "group", members := [{ id := "u1@example.com" }] }

/-- Chat fixture A. -/
def chatA : Chat := { id := "A", topic := "Alpha" }

/-- Chat fixture B. -/
def chatB : Chat := { id := "B", topic := "Beta" }

/-- A message in chat A. -/
def msgA1 : ChatMessage := { id := "a1", createdDateTime := 100 }

/-- A chat-listing oracle answering `[A, B]`. -/
def c6ListChats : ListChatsOptions → Except String ChatCollectionResponse :=
  fun _ => .ok { value := [chatA, chatB] }

/-- A message-listing oracle: chat A has one message, chat B throws. -/
def c6GetMsgs : String → ListMessagesOptions → Except String MessagesResponse :=
  fun cid _ => if cid = "A" then .ok { value := [msgA1] } else .error "boom"

/-- A chat listing `[A, B]` whose remote response carries no continuation link. -/
def c9Chats : ChatCollectionResponse := { value := [chatA, chatB], nextLink := none }

/-- A chat-listing oracle answering `c9Chats`. -/
def c9ListChats : ListChatsOptions → Except String ChatCollectionResponse :=
  fun _ => .ok c9Chats

/-- A one-message remote page without continuation link. -/
def c9MsgsResp : MessagesResponse := { value := [msgA1] }

/-- A message-listing oracle answering `c9MsgsResp` for every chat. -/
def c9GetMsgs : String → ListMessagesOptions → Except String MessagesResponse :=
  fun _ _ => .ok c9MsgsResp

/-- Aggregation options requesting one message per page. -/
def c9Options : RecentMessagesOptions := { top := some 1 }

/-- The aggregation outcome over the `c9` fixtures. -/
def c9Result : Except String RecentMessagesResult :=
  getRecentMessages c9ListChats c9GetMsgs (fun _ => "cutoff") c9Options

/-- A remote chat-listing response carrying a continuation link. -/
def c9ChatsResp : ChatsResponse := { value := some [chatA], nextLink := some "NL" }

/-- A chats oracle answering `c9ChatsResp`. -/
def c9ChatsServer : ChatsRequest → Except String ChatsResponse :=
  fun _ => .ok c9ChatsResp

/-- A user-resolution oracle that always fails (never consulted for emails). -/
def c8Resolve : String → Except String (Option String) := fun _ => .error "not found"

/-- The caller-supplied member list of the end-to-end creation scenario. -/
def c8Members : List ChatMember := [{ id := "u1@example.com" }]

/-- The current user of the end-to-end creation scenario. -/
def c8Upn : String := "me@contoso.com"

/-- The formatted form of `c8Members`. -/
def c8Fms : List FormattedMember :=
  [{ odataType := "#microsoft.graph.aadUserConversationMember"
     bind := "https://graph.microsoft.com/v1.0/users/u1%40example.com"
     roles := ["guest"] }]

/-- A create oracle for the end-to-end creation scenario. -/
def c8Post : CreateChatBody → Except String CreateChatResponse :=
  fun _ => .ok { id := "19:x" }

/-- Caller input with an empty member list. -/
def c7Data : CreateChatData := { topic := "t", chatType := "group", members := [] }

/-! ## Theorems settling the claims -/

/-- Claim C5 (code bug): the claim says a too-long text field renders as the
field cut to `width - 3` characters followed by `...`, the whole cell exactly
`width` wide.  The code instead pads the cut text to `width` BEFORE appending
the ellipsis, so a truncated topic cell of the chat table is `width + 3`
characters wide (27 chars + 3 pad spaces + `...` for width 30), breaking the
fixed column width; fields that fit are padded to exactly `width`. -/
theorem C5_truncated_cell_overflows_column :
    (renderTopicCell (some "abcdefghijklmnopqrstuvwxyz01234") topicColumnWidth).length = 33 ∧
    renderTopicCell (some "abcdefghijklmnopqrstuvwxyz01234") topicColumnWidth =
      "abcdefghijklmnopqrstuvwxyz0" ++ "   " ++ "..." ∧
    renderTopicCell (some "abcdefghijklmnopqrstuvwxyz01234") topicColumnWidth ≠
      jsSubstring0 "abcdefghijklmnopqrstuvwxyz01234" 27 ++ "..." ∧
    (renderTopicCell (some "short") topicColumnWidth).length = topicColumnWidth := by
  refine ⟨?_, ?_, ?_, ?_⟩ <;> decide

/-- Claim C2 counterexample: the variant `listChats` (part_006:214-217) does
not clamp at all — a supplied `top` of 5000 for chat listing is passed through
raw to the remote request, and an absent `top` yields no `$top` (not 50). -/
theorem C2_counterexample :
    (listChatsV2Request { top := some 5000 }).top = some 5000 ∧
    50 < 5000 ∧
    (listChatsV2Request {}).top = none := by
  refine ⟨?_, ?_, ?_⟩ <;> decide

/-- Claim C2 (amended): in the primary service, chat-listing `$top` is clamped
to 50 (default 50) and message-listing `$top` to 1000 (default 50), with
`top = 5000` yielding an effective 1000; but in the variant service the chat
listing passes a supplied `top` through raw with no clamp and no default. -/
theorem C2_top_clamping (oc : ListChatsOptions) (om : ListMessagesOptions)
    (upn : Option String) (toISO : String → String) (chatId : String) :
    (buildChatsRequest oc).top ≤ 50 ∧
    (oc.top = none → (buildChatsRequest oc).top = 50) ∧
    (buildMessagesRequest upn toISO chatId om).top ≤ 1000 ∧
    (om.top = none → (buildMessagesRequest upn toISO chatId om).top = 50) ∧
    (om.top = some 5000 → (buildMessagesRequest upn toISO chatId om).top = 1000) ∧
    (natTruthy oc.top = true → natTruthy oc.skip = false →
      (listChatsV2Request oc).top = oc.top) := by
  refine ⟨?_, ?_, ?_, ?_, ?_, ?_⟩
  · simp only [buildChatsRequest]
    split
    · exact le_trans (Nat.min_le_right _ _) (le_refl 50)
    · exact le_refl 50
  · intro h
    simp [buildChatsRequest, natTruthy, h]
  · simp only [buildMessagesRequest]
    split
    · exact Nat.min_le_right _ _
    · omega
  · intro h
    simp [buildMessagesRequest, natTruthy, h]
  · intro h
    simp [buildMessagesRequest, natTruthy, h]
  · intro ht hs
    simp only [listChatsV2Request, ht, hs, if_true, Bool.false_eq_true, if_false]
    split <;> split <;> split <;> split <;> rfl

/-- Claim C2 witness: the amended statement at a concrete input, with the
conditional parts discharged at `top = 5000` for messages and absent
`top`/`skip` handling for the variant chat listing. -/
theorem C2_top_clamping_witness :
    (buildMessagesRequest none id "c" { top := some 5000 }).top = 1000 ∧
    (buildChatsRequest { top := some 5000 }).top ≤ 50 ∧
    (listChatsV2Request { top := some 5000 }).top = some 5000 :=
  ⟨(C2_top_clamping { top := some 5000 } { top := some 5000 } none id "c").2.2.2.2.1 rfl,
   (C2_top_clamping { top := some 5000 } { top := some 5000 } none id "c").1,
   (C2_top_clamping { top := some 5000 } { top := some 5000 } none id "c").2.2.2.2.2
     (by decide) (by decide)⟩

/-- Claim C3 (confirmed): when the POST `/chats` succeeds but the follow-up
fetch of the full chat fails, the variant `createChat` still succeeds and
returns a Chat whose id is the create-response id, whose topic and chatType
are the caller inputs, and whose createdDateTime is the fresh timestamp taken
in the fallback — no older than the start of the operation (`tStart ≤ now`
models clock monotonicity across the operation). -/
theorem C3_create_fallback
    (postChats : CreateChatBody → Except String CreateChatResponse)
    (getChatById : String → Except String Chat)
    (now tStart : Nat) (chatData : CreateChatData)
    (resp : CreateChatResponse) (e : String)
    (hpost : postChats (createChatV2Body chatData) = .ok resp)
    (hget : getChatById resp.id = .error e)
    (hclock : tStart ≤ now) :
    ∃ chat : Chat, createChatV2 postChats getChatById now chatData = .ok chat ∧
      chat.id = resp.id ∧ chat.topic = chatData.topic ∧
      chat.chatType = chatData.chatType ∧ tStart ≤ chat.createdDateTime := by
  refine ⟨{ id := resp.id, topic := chatData.topic, chatType := chatData.chatType,
            createdDateTime := now, lastUpdatedDateTime := now },
          ?_, rfl, rfl, rfl, hclock⟩
  simp [createChatV2, hpost, hget]

/-- Claim C3 witness: the fallback at the concrete fixtures (create succeeds
with id `19:abc`, follow-up fetch fails). -/
theorem C3_create_fallback_witness :
    ∃ chat : Chat, createChatV2 c3Post c3Get 5 c3Data = .ok chat ∧
      chat.id = "19:abc" ∧ chat.topic = c3Data.topic ∧
      chat.chatType = c3Data.chatType ∧ 3 ≤ chat.createdDateTime :=
  C3_create_fallback c3Post c3Get 5 3 c3Data { id := "19:abc" }
    "Insufficient permissions" rfl rfl (by decide)

/-- Claim C4 (confirmed): with the `isRead` option set, the predicate is not
part of the synthesized OData filter (the request is the one built with
`isRead` cleared), it is applied client-side to the retrieved page, the result
holds exactly the matching messages, and present `@odata.count` metadata is
overwritten with the filtered length. -/
theorem C4_isRead_client_filter
    (server : MessagesRequest → Except String MessagesResponse)
    (upn : Option String) (toISO : String → String) (chatId : String)
    (o : ListMessagesOptions) (b : Bool) (resp : MessagesResponse)
    (hread : o.isRead = some b)
    (hserver : server (buildMessagesRequest upn toISO chatId o) = .ok resp) :
    buildMessagesRequest upn toISO chatId o =
      buildMessagesRequest upn toISO chatId { o with isRead := none } ∧
    ∃ r, getChatMessages server upn toISO chatId o = .ok r ∧
      r.value = resp.value.filter (fun m => if b then msgReadTruthy m else !msgReadTruthy m) ∧
      (∀ m ∈ r.value, msgReadTruthy m = b) ∧
      (∀ n, resp.odataCount = some n → r.odataCount = some r.value.length) ∧
      r.nextLink = resp.nextLink := by
  constructor
  · rfl
  refine ⟨applyIsReadFilter o resp, ?_, ?_, ?_, ?_, ?_⟩
  · simp [getChatMessages, hserver]
  · simp [applyIsReadFilter, hread]
  · intro m hm
    simp only [applyIsReadFilter, hread] at hm
    have := List.of_mem_filter hm
    cases b <;> simp_all
  · intro n hn
    simp [applyIsReadFilter, hread, hn]
  · simp [applyIsReadFilter, hread]

/-- Claim C4 witness: the page `[read, unread, unread]` with `isRead = false`
yields exactly the two unread messages and a corrected count. -/
theorem C4_isRead_client_filter_witness :
    buildMessagesRequest none id "c" isReadOptions =
      buildMessagesRequest none id "c" { isReadOptions with isRead := none } ∧
    ∃ r, getChatMessages isReadServer none id "c" isReadOptions = .ok r ∧
      r.value = isReadResponse.value.filter
        (fun m => if false then msgReadTruthy m else !msgReadTruthy m) ∧
      (∀ m ∈ r.value, msgReadTruthy m = false) ∧
      (∀ n, isReadResponse.odataCount = some n → r.odataCount = some r.value.length) ∧
      r.nextLink = isReadResponse.nextLink :=
  C4_isRead_client_filter isReadServer none id "c" isReadOptions false
    isReadResponse rfl rfl

/-- Claim C7 (confirmed): a falsy access token makes the ChatService
constructor throw with an empty network trace, and an empty member list makes
`createChat` throw its validation error with an empty network trace — in both
cases no network call precedes the error. -/
theorem C7_validation_before_network
    (cfg : ChatServiceConfig)
    (me : Except String (Option String))
    (resolve : String → Except String (Option String))
    (post : CreateChatBody → Except String CreateChatResponse)
    (now : Nat) (chatData : CreateChatData)
    (htok : strTruthy cfg.accessToken = false)
    (hmem : chatData.members = []) :
    mkChatService cfg =
      (.error "accessToken is required in ChatService configuration", []) ∧
    createChatTraced me resolve post now chatData =
      (.error "Failed to create chat: At least one member is required to create a chat",
       []) := by
  constructor
  · simp [mkChatService, htok]
  · simp [createChatTraced, hmem]

/-- Claim C7 witness: the default (tokenless) configuration and an empty
member list, both rejected with empty traces. -/
theorem C7_validation_before_network_witness :
    mkChatService {} =
      (.error "accessToken is required in ChatService configuration", []) ∧
    createChatTraced (.ok (some "me@x.com")) c8Resolve c8Post 0 c7Data =
      (.error "Failed to create chat: At least one member is required to create a chat",
       []) :=
  C7_validation_before_network {} (.ok (some "me@x.com")) c8Resolve c8Post 0 c7Data
    (by decide) rfl

/-- Formatting the member list succeeds with one formatted entry per caller
member. -/
theorem formatMembers_ok_length (resolve : String → Except String (Option String)) :
    ∀ (ms : List ChatMember) (fms : List FormattedMember) (calls : List NetCall),
      formatMembers resolve ms = (.ok fms, calls) → fms.length = ms.length := by
  intro ms
  induction ms with
  | nil =>
    intro fms calls h
    simp only [formatMembers, Prod.mk.injEq, Except.ok.injEq] at h
    rw [← h.1]
    rfl
  | cons m rest ih =>
    intro fms calls h
    simp only [formatMembers] at h
    rcases hfm : formatMember resolve m with ⟨fmres, calls1⟩
    rw [hfm] at h
    cases fmres with
    | error e => simp at h
    | ok fm =>
      rcases hrest : formatMembers resolve rest with ⟨restres, calls2⟩
      rw [hrest] at h
      cases restres with
      | error e2 => simp at h
      | ok fms2 =>
        simp only [Prod.mk.injEq, Except.ok.injEq] at h
        rw [← h.1]
        simp [ih fms2 calls2 (by rw [hrest])]

/-- Claim C8 (confirmed): when the current user is not already among the
formatted members, exactly one owner entry for the current user is prepended,
so the POSTed payload has `members.length + 1` entries — and the POST `/chats`
appearing in the network trace carries exactly that payload, whatever the
remote create outcome. -/
theorem C8_current_user_added_as_owner
    (resolve : String → Except String (Option String))
    (post : CreateChatBody → Except String CreateChatResponse)
    (upn topic chatType : String) (now : Nat)
    (members : List ChatMember) (fms : List FormattedMember) (calls : List NetCall)
    (hne : members ≠ [])
    (hupn : upn ≠ "")
    (hfmt : formatMembers resolve members = (.ok fms, calls))
    (hnotin : currentUserExists fms upn = false) :
    createChatMembersPayload upn fms = ownerEntry upn :: fms ∧
    (createChatMembersPayload upn fms).length = members.length + 1 ∧
    (ownerEntry upn).roles = ["owner"] ∧
    (createChatTraced (.ok (some upn)) resolve post now
        { topic := topic, chatType := chatType, members := members }).2 =
      NetCall.getMe :: calls ++
        [NetCall.postChats
          { chatType := chatType, topic := topic,
            members := ownerEntry upn :: fms }] := by
  have hpay : createChatMembersPayload upn fms = ownerEntry upn :: fms := by
    simp [createChatMembersPayload, hnotin]
  refine ⟨hpay, ?_, rfl, ?_⟩
  · rw [hpay]
    simp [formatMembers_ok_length resolve members fms calls hfmt]
  · have hlen : members.length ≠ 0 := by
      simpa using fun hz => hne (List.length_eq_zero.mp hz)
    have hf : upn.isEmpty = false := by
      cases hemp : upn.isEmpty with
      | false => rfl
      | true => exact absurd ((String.isEmpty_iff upn).mp hemp) hupn
    have hupnT : strTruthy (some upn) = true := by
      simp [strTruthy, hf]
    simp only [createChatTraced, hlen, if_false, hupnT, Bool.not_true,
      Bool.false_eq_true, Option.getD_some, hfmt, hpay]
    split
    · rfl
    · split <;> rfl

/-- Claim C8 witness: the end-to-end scenario — members `[u1@example.com]`
with caller `me@contoso.com` — yields a two-entry payload: the caller as
owner, then `u1@example.com`. -/
theorem C8_current_user_added_as_owner_witness :
    createChatMembersPayload c8Upn c8Fms = ownerEntry c8Upn :: c8Fms ∧
    (createChatMembersPayload c8Upn c8Fms).length = c8Members.length + 1 ∧
    (ownerEntry c8Upn).roles = ["owner"] ∧
    (createChatTraced (.ok (some c8Upn)) c8Resolve c8Post 0
        { topic := "Sync", chatType := "group", members := c8Members }).2 =
      NetCall.getMe :: [] ++
        [NetCall.postChats
          { chatType := "group", topic := "Sync",
            members := ownerEntry c8Upn :: c8Fms }] :=
  C8_current_user_added_as_owner c8Resolve c8Post c8Upn "Sync" "group" 0
    c8Members c8Fms [] (by decide) (by decide) (by decide) (by decide)

/-- Claim C10 (confirmed): given a remote page respecting the requested
`$top`, the normalized result is a sublist of that single page (the client-side
`isRead` filter never fetches more), its length is bounded by the effective
top — `min(top, 1000)` when supplied, 50 when absent — and absent
`@odata.count` metadata stays absent. -/
theorem C10_result_bounded_by_effective_top
    (server : MessagesRequest → Except String MessagesResponse)
    (upn : Option String) (toISO : String → String) (chatId : String)
    (o : ListMessagesOptions) (resp : MessagesResponse)
    (hserver : server (buildMessagesRequest upn toISO chatId o) = .ok resp)
    (hbound : resp.value.length ≤ (buildMessagesRequest upn toISO chatId o).top) :
    ∃ r, getChatMessages server upn toISO chatId o = .ok r ∧
      r.value.Sublist resp.value ∧
      r.value.length ≤ (if natTruthy o.top then min (o.top.getD 0) 1000 else 50) ∧
      (∀ t, o.top = some t → 0 < t →
        (buildMessagesRequest upn toISO chatId o).top = min t 1000) ∧
      (o.top = none → (buildMessagesRequest upn toISO chatId o).top = 50) ∧
      (resp.odataCount = none → r.odataCount = none) := by
  refine ⟨applyIsReadFilter o resp, by simp [getChatMessages, hserver], ?_, ?_, ?_, ?_, ?_⟩
  · cases hr : o.isRead with
    | none => simp [applyIsReadFilter, hr]
    | some b => simp [applyIsReadFilter, hr, List.filter_sublist]
  · have hsub : (applyIsReadFilter o resp).value.Sublist resp.value := by
      cases hr : o.isRead with
      | none => simp [applyIsReadFilter, hr]
      | some b => simp [applyIsReadFilter, hr, List.filter_sublist]
    exact le_trans hsub.length_le hbound
  · intro t ht hpos
    simp [buildMessagesRequest, natTruthy, ht, Nat.pos_iff_ne_zero.mp hpos]
  · intro ht
    simp [buildMessagesRequest, natTruthy, ht]
  · intro hc
    cases hr : o.isRead with
    | none => simp [applyIsReadFilter, hr, hc]
    | some b => simp [applyIsReadFilter, hr, hc]

/-- Claim C10 witness: a two-message page with `top = 5000` — the effective
top is 1000, the result stays within the page, and no count is invented. -/
theorem C10_result_bounded_by_effective_top_witness :
    ∃ r, getChatMessages c10Server none id "c" { top := some 5000 } = .ok r ∧
      r.value.Sublist [msgRead1, msgUnread2] ∧
      r.value.length ≤
        (if natTruthy (some 5000 : Option Nat) then min ((some 5000 : Option Nat).getD 0) 1000
         else 50) ∧
      (∀ t, (some 5000 : Option Nat) = some t → 0 < t →
        (buildMessagesRequest none id "c" { top := some 5000 }).top = min t 1000) ∧
      ((some 5000 : Option Nat) = none →
        (buildMessagesRequest none id "c" { top := some 5000 }).top = 50) ∧
      ((none : Option Nat) = none → r.odataCount = none) :=
  C10_result_bounded_by_effective_top c10Server none id "c" { top := some 5000 }
    { value := [msgRead1, msgUnread2] } rfl (by decide)

/-- Claim C9 counterexample: aggregating over two chats whose remote responses
carry NO continuation link, with `top = 1`, `getRecentMessages` still returns
a continuation link — the locally synthesized token `skip=1&top=1`, not a
remote `@odata.nextLink` passed through verbatim. -/
theorem C9_counterexample :
    c9Chats.nextLink = none ∧ c9MsgsResp.nextLink = none ∧
    c9Result.toOption.map RecentMessagesResult.nextLink =
      some (some (synthNextLink 0 1)) ∧
    synthNextLink 0 1 = "skip=1&top=1" ∧
    some "skip=1&top=1" ≠ (none : Option String) := by
  refine ⟨rfl, rfl, rfl, by decide, by decide⟩

/-- Claim C9 (amended): the primary `listChats` does pass the remote
`@odata.nextLink` through verbatim (absent stays absent); but
`getRecentMessages` never passes a remote link through — it synthesizes a
local `skip=N&top=M` token exactly when more aggregated messages remain
beyond the returned slice. -/
theorem C9_nextLink_passthrough_and_synthesis
    (server : ChatsRequest → Except String ChatsResponse) (oc : ListChatsOptions)
    (resp : ChatsResponse)
    (listChatsFn : ListChatsOptions → Except String ChatCollectionResponse)
    (getMsgs : String → ListMessagesOptions → Except String MessagesResponse)
    (nowMinusDays : Nat → String) (o : RecentMessagesOptions)
    (chats : ChatCollectionResponse)
    (h1 : server (buildChatsRequest oc) = .ok resp)
    (h2 : listChatsFn { top := some 100 } = .ok chats) :
    listChats server oc = .ok { value := resp.value.getD [], nextLink := resp.nextLink } ∧
    (∃ r, getRecentMessages listChatsFn getMsgs nowMinusDays o = .ok r ∧
      r.nextLink =
        (if (collectRecent getMsgs
              (recentPerChatOptions (nowMinusDays (recentDaysOf o)) o) chats.value).length >
            recentSkipOf o + recentTopOf o
         then some (synthNextLink (recentSkipOf o) (recentTopOf o)) else none)) := by
  constructor
  · simp [listChats, h1]
  · simp only [getRecentMessages, h2]
    exact ⟨_, rfl, rfl⟩

/-- Claim C9 witness: verbatim pass-through of the link `NL` by `listChats`,
and the synthesized token of `getRecentMessages` over the `c9` fixtures. -/
theorem C9_nextLink_passthrough_and_synthesis_witness :
    listChats c9ChatsServer {} =
      .ok { value := c9ChatsResp.value.getD [], nextLink := c9ChatsResp.nextLink } ∧
    (∃ r, getRecentMessages c9ListChats c9GetMsgs (fun _ => "cutoff") c9Options = .ok r ∧
      r.nextLink =
        (if (collectRecent c9GetMsgs
              (recentPerChatOptions ((fun (_ : Nat) => "cutoff") (recentDaysOf c9Options))
                c9Options) c9Chats.value).length >
            recentSkipOf c9Options + recentTopOf c9Options
         then some (synthNextLink (recentSkipOf c9Options) (recentTopOf c9Options))
         else none)) :=
  C9_nextLink_passthrough_and_synthesis c9ChatsServer {} c9ChatsResp
    c9ListChats c9GetMsgs (fun _ => "cutoff") c9Options c9Chats rfl rfl

/-- Claim C6 (confirmed): when the initial chat listing succeeds, the
aggregation always succeeds (no exception escapes the failure of one chat);
the result is the per-chat collection — in which any chat whose listing call
throws contributes nothing while aggregation continues over the remaining
chats — sorted newest-first and sliced to `[skip, skip + top)`, and the
returned slice is itself ordered newest-first. -/
theorem C6_recent_aggregation
    (listChatsFn : ListChatsOptions → Except String ChatCollectionResponse)
    (getMsgs : String → ListMessagesOptions → Except String MessagesResponse)
    (nowMinusDays : Nat → String) (o : RecentMessagesOptions)
    (chats : ChatCollectionResponse)
    (h : listChatsFn { top := some 100 } = .ok chats) :
    ∃ r, getRecentMessages listChatsFn getMsgs nowMinusDays o = .ok r ∧
      r.value =
        (((collectRecent getMsgs (recentPerChatOptions (nowMinusDays (recentDaysOf o)) o)
            chats.value).mergeSort msgGE).drop (recentSkipOf o)).take (recentTopOf o) ∧
      r.value.Pairwise (fun a b => b.msg.createdDateTime ≤ a.msg.createdDateTime) ∧
      (∀ (l1 l2 : List Chat) (chat : Chat) (e : String),
        getMsgs chat.id (recentPerChatOptions (nowMinusDays (recentDaysOf o)) o) = .error e →
        collectRecent getMsgs (recentPerChatOptions (nowMinusDays (recentDaysOf o)) o)
            (l1 ++ chat :: l2) =
          collectRecent getMsgs (recentPerChatOptions (nowMinusDays (recentDaysOf o)) o)
            (l1 ++ l2)) := by
  simp only [getRecentMessages, h]
  refine ⟨_, rfl, rfl, ?_, ?_⟩
  · have htrans : ∀ (a b c : ExtendedChatMessage),
        msgGE a b → msgGE b c → msgGE a c := by
      intro a b c hab hbc
      simp only [msgGE, decide_eq_true_eq] at *
      omega
    have htotal : ∀ (a b : ExtendedChatMessage), msgGE a b || msgGE b a := by
      intro a b
      simp only [msgGE]
      rcases Nat.le_total b.msg.createdDateTime a.msg.createdDateTime with hle | hle <;>
        simp [hle]
    have hs := @List.sorted_mergeSort ExtendedChatMessage msgGE htrans htotal
      (collectRecent getMsgs (recentPerChatOptions (nowMinusDays (recentDaysOf o)) o)
        chats.value)
    have hsub : ∀ (l : List ExtendedChatMessage),
        ((l.drop (recentSkipOf o)).take (recentTopOf o)).Sublist l := by
      intro l
      exact (List.take_sublist _ _).trans (List.drop_sublist _ _)
    refine List.Pairwise.sublist (hsub _) (hs.imp ?_)
    intro a b hab
    simpa [msgGE, decide_eq_true_eq] using hab
  · intro l1 l2 chat e herr
    induction l1 with
    | nil => simp [collectRecent, herr]
    | cons c cs ih => simp [collectRecent, ih]

/-- Claim C6 witness: chats `[A, B]` where the listing call for B throws —
the aggregation succeeds, and the skipped-chat property is discharged at the
concrete oracles. -/
theorem C6_recent_aggregation_witness :
    ∃ r, getRecentMessages c6ListChats c6GetMsgs (fun _ => "cutoff") {} = .ok r ∧
      r.value =
        (((collectRecent c6GetMsgs
            (recentPerChatOptions ((fun (_ : Nat) => "cutoff") (recentDaysOf {})) {})
            ({ value := [chatA, chatB] } : ChatCollectionResponse).value).mergeSort
              msgGE).drop (recentSkipOf {})).take (recentTopOf {}) ∧
      r.value.Pairwise (fun a b => b.msg.createdDateTime ≤ a.msg.createdDateTime) ∧
      (∀ (l1 l2 : List Chat) (chat : Chat) (e : String),
        c6GetMsgs chat.id
            (recentPerChatOptions ((fun (_ : Nat) => "cutoff") (recentDaysOf {})) {}) =
          .error e →
        collectRecent c6GetMsgs
            (recentPerChatOptions ((fun (_ : Nat) => "cutoff") (recentDaysOf {})) {})
            (l1 ++ chat :: l2) =
          collectRecent c6GetMsgs
            (recentPerChatOptions ((fun (_ : Nat) => "cutoff") (recentDaysOf {})) {})
            (l1 ++ l2)) :=
  C6_recent_aggregation c6ListChats c6GetMsgs (fun _ => "cutoff") {}
    { value := [chatA, chatB] } rfl

/-- The synthesized filter has exactly one clause per supplied predicate. -/
theorem messagesFilterParts_length (upn : Option String) (toISO : String → String)
    (o : ListMessagesOptions) :
    (messagesFilterParts upn toISO o).length = suppliedPredCount o := by
  simp only [messagesFilterParts, suppliedPredCount, List.length_append]
  by_cases hf : strTruthy o.fromUser <;> by_cases hi : strTruthy o.importance <;>
    by_cases ha : strTruthy o.afterDateTime <;> by_cases hb : strTruthy o.beforeDateTime <;>
    by_cases hc : strTruthy o.contains <;> simp [hf, hi, ha, hb, hc]

/-- A truthy string option means: some non-empty string. -/
theorem strTruthy_some {s : String} (h : s ≠ "") : strTruthy (some s) = true := by
  cases hemp : s.isEmpty with
  | false => simp [strTruthy, hemp]
  | true => exact absurd ((String.isEmpty_iff s).mp hemp) h

/-- When a `from` predicate is supplied, its clause comes first. -/
theorem messagesFilterParts_head_from (upn : Option String) (toISO : String → String)
    (o : ListMessagesOptions) (f : String)
    (hof : o.fromUser = some f) (hne : f ≠ "") :
    (messagesFilterParts upn toISO o).head? = some (fromClause upn f) := by
  have hf : strTruthy o.fromUser = true := by rw [hof]; exact strTruthy_some hne
  simp [messagesFilterParts, hf, hof, strTruthy_some hne]

/-- When a `contains` predicate is supplied, its clause comes last — and that
clause embeds the user text with every single quote doubled. -/
theorem messagesFilterParts_getLast_contains (upn : Option String)
    (toISO : String → String) (o : ListMessagesOptions) (c : String)
    (hoc : o.contains = some c) (hne : c ≠ "") :
    (messagesFilterParts upn toISO o).getLast? = some (containsClause c) := by
  have hc : strTruthy o.contains = true := by rw [hoc]; exact strTruthy_some hne
  simp [messagesFilterParts, hc, hoc, strTruthy_some hne]

/-- Claim C1 (amended): one clause per supplied structured predicate, joined
with " and " in the fixed source order (`from` first, `contains` last), and no
`$filter` at all exactly when no predicate is supplied.  Single quotes in the
user text are doubled only in the `contains` clause; the `from` value is
percent-encoded via `encodeURIComponent`, which leaves single quotes
unescaped rather than doubling them. -/
theorem C1_filter_synthesis (upn : Option String) (toISO : String → String)
    (o : ListMessagesOptions) :
    (messagesFilterParts upn toISO o).length = suppliedPredCount o ∧
    (messagesFilter upn toISO o = none ↔ suppliedPredCount o = 0) ∧
    (suppliedPredCount o ≠ 0 →
      messagesFilter upn toISO o =
        some (String.intercalate " and " (messagesFilterParts upn toISO o))) ∧
    (∀ f, o.fromUser = some f → f ≠ "" →
      (messagesFilterParts upn toISO o).head? = some (fromClause upn f) ∧
      fromClause upn f =
        "from/emailAddress/address eq " ++ sq ++
          encodeURIComponent (if f = "me" then jsOrStr upn "me" else f) ++ sq) ∧
    (∀ c, o.contains = some c → c ≠ "" →
      (messagesFilterParts upn toISO o).getLast? = some (containsClause c) ∧
      containsClause c = "contains(body/content, " ++ sq ++ escQuotes c ++ sq ++ ")") := by
  refine ⟨messagesFilterParts_length upn toISO o, ?_, ?_, ?_, ?_⟩
  · simp only [messagesFilter, messagesFilterParts_length]
    by_cases h0 : suppliedPredCount o = 0
    · simp [h0]
    · simp [h0, Nat.pos_of_ne_zero h0]
  · intro h0
    simp only [messagesFilter, messagesFilterParts_length]
    simp [Nat.pos_of_ne_zero h0]
  · intro f hof hne
    exact ⟨messagesFilterParts_head_from upn toISO o f hof hne, rfl⟩
  · intro c hoc hne
    exact ⟨messagesFilterParts_getLast_contains upn toISO o c hoc hne, rfl⟩

/-- Claim C1 witness: the amended statement at a concrete input supplying
`from` and `contains` (the latter with an embedded quote), with the
conditional parts discharged there. -/
theorem C1_filter_synthesis_witness :
    (messagesFilterParts none (fun s => s) cexWitnessOptions).head? =
      some (fromClause none "alice@x.com") ∧
    (messagesFilterParts none (fun s => s) cexWitnessOptions).getLast? =
      some (containsClause ("a" ++ sq ++ "b")) ∧
    (messagesFilterParts none (fun s => s) cexWitnessOptions).length =
      suppliedPredCount cexWitnessOptions ∧
    messagesFilter none (fun s => s) cexWitnessOptions =
      some (String.intercalate " and "
        (messagesFilterParts none (fun s => s) cexWitnessOptions)) :=
  ⟨((C1_filter_synthesis none (fun s => s) cexWitnessOptions).2.2.2.1
      "alice@x.com" rfl (by decide)).1,
   ((C1_filter_synthesis none (fun s => s) cexWitnessOptions).2.2.2.2
      ("a" ++ sq ++ "b") rfl (by decide)).1,
   (C1_filter_synthesis none (fun s => s) cexWitnessOptions).1,
   (C1_filter_synthesis none (fun s => s) cexWitnessOptions).2.2.1 (by decide)⟩

/-- Claim C1 counterexample: with a `from` value carrying a single quote the synthesized
clause embeds the single quote UNdoubled — the clause contains no doubled
quote at all although the user text contains one, because
`encodeURIComponent` leaves single quotes unescaped. -/
theorem C1_counterexample :
    messagesFilter none (fun s => s) cexFromOptions =
      some ("from/emailAddress/address eq " ++ sq ++ "o" ++ sq ++ "brien%40x.com" ++ sq) ∧
    jsIncludes ("from/emailAddress/address eq " ++ sq ++ "o" ++ sq ++ "brien%40x.com" ++ sq)
      (sq ++ sq) = false ∧
    jsIncludes ("o" ++ sq ++ "brien@x.com") sq = true ∧
    encodeURIComponent ("o" ++ sq ++ "brien@x.com") ≠
      escQuotes ("o" ++ sq ++ "brien@x.com") := by
  refine ⟨?_, ?_, ?_, ?_⟩ <;> decide

end McpMsChat
